import Mathlib

/-!
Shallow embedding of the audio-midi-workbench core.

The embedding covers:
* the layered configuration merge pipeline of `workbench_config.c`
  (`config_init`, `parse_val`, `read_config_from_file`, the `CONFIG`
  X-macro field list of `workbench.h`);
* device resolution of `workbench_audio.c` (`audio_device_find`,
  the resolution blocks of `audio_init`, `midi_device_find`, the
  resolution blocks of `midi_init`);
* the callback bridge (`__audio_callback`, `__midi_callback`) and the
  timer wiring of `midi_init`;
* the teardown path (`config_deinit`, `midi_deinit`, `audio_deinit`),
  with the C heap modelled explicitly so that double frees are visible.

C machine integers are modelled as `Int`/`Nat` with explicit wrapping
(`% 2 ^ 32`, ...).  The two `double` fields hold values produced by
decimal text and are modelled as `ℚ`; the inputs appearing in the claims
are exactly representable in binary64, so no rounding is lost.  Code that
can exhibit undefined behaviour (NULL dereference, double free) is
modelled in `Option`, with `none` standing for the crash.
-/

namespace Workbench

/-- C locale whitespace skipped by the strtol family. -/
def isSpaceC (c : Char) : Bool :=
  c == ' ' || c == '\t' || c == '\n' || c == '\x0b' || c == '\x0c' || c == '\r'

/-- Numeric value of a block of decimal digit characters. -/
def digitsVal (l : List Char) : Nat :=
  l.foldl (fun acc c => 10 * acc + (c.toNat - Char.toNat '0')) 0

/-- Optional sign: the sign factor and the remaining characters. -/
def parseSign : List Char → Int × List Char
  | '+' :: rest => (1, rest)
  | '-' :: rest => (-1, rest)
  | l => (1, l)

/-- Saturation of strtoll at the long long range. -/
def clampI64 (n : Int) : Int := max (-(2 ^ 63)) (min (2 ^ 63 - 1) n)

/-- Model of `strtoll(val, NULL, 10)`: the converted value together with
whether any conversion was performed at all.  The C caller passes a NULL
endptr, so the second component is discarded by `parse_val` - a fully
non-numeric string silently converts to 0. -/
def strtoll_conv (s : String) : Int × Bool :=
  let cs := s.toList.dropWhile (fun c => isSpaceC c)
  let p := parseSign cs
  let ds := p.2.takeWhile (fun c => c.isDigit)
  if ds.isEmpty then (0, false) else (clampI64 (p.1 * (digitsVal ds : Int)), true)

/-- Model of `strtoull(val, NULL, 10)`: an accepted minus sign wraps in
unsigned arithmetic, overflow saturates at the unsigned long long range. -/
def strtoull_conv (s : String) : Nat × Bool :=
  let cs := s.toList.dropWhile (fun c => isSpaceC c)
  let p := parseSign cs
  let ds := p.2.takeWhile (fun c => c.isDigit)
  if ds.isEmpty then (0, false)
  else
    let m := digitsVal ds
    let v :=
      if 2 ^ 64 - 1 < m then 2 ^ 64 - 1
      else if p.1 < 0 then (2 ^ 64 - m % 2 ^ 64) % 2 ^ 64 else m
    (v, true)

/-- Model of `strtod(val, NULL)` on the plain decimal fragment
(optional sign, digits, optional point and fraction digits).  The
exponent, hexadecimal and inf/nan forms of strtod are not used by any
input of the claims and are left out; values of the decimal fragment
appearing in the claims are exactly representable, so `ℚ` is exact. -/
def strtod_conv (s : String) : ℚ × Bool :=
  let cs := s.toList.dropWhile (fun c => isSpaceC c)
  let p := parseSign cs
  let ipart := p.2.takeWhile (fun c => c.isDigit)
  let rest := p.2.dropWhile (fun c => c.isDigit)
  let fpart :=
    match rest with
    | '.' :: r => r.takeWhile (fun c => c.isDigit)
    | _ => []
  if ipart.isEmpty && fpart.isEmpty then (0, false)
  else
    let den : Nat := 10 ^ fpart.length
    (mkRat (p.1 * ((digitsVal ipart * den + digitsVal fpart : Nat) : Int)) den, true)

/-- Store through an `int32_t *` slot: two's-complement truncation. -/
def toInt32 (n : Int) : Int := (n + 2 ^ 31) % 2 ^ 32 - 2 ^ 31

/-- Store through a `uint32_t *` slot. -/
def toUInt32 (n : Nat) : Nat := n % 2 ^ 32

/-- Reading a `uint8_t` field from the low byte of the stored
`uint32_t` (little-endian, as in the compiled code). -/
def toUInt8 (n : Nat) : Nat := n % 2 ^ 8

/-- A PortMidi event (`PmEvent`): a packed message and a timestamp. -/
structure PmEvent where
  message : Int
  timestamp : Int
deriving DecidableEq, Repr, Inhabited

/-- The user MIDI routine
`int (*MidiCallback)(const void *, void *, unsigned long, void *)`:
it receives the contents of the input event buffer, the current contents
of the output event buffer, the number of events read, and the opaque
user context; it returns its output event count and the new contents of
the output buffer. -/
def MidiRoutine : Type :=
  List PmEvent → List PmEvent → Nat → Nat → Int × List PmEvent

/-- The resolved configuration `Config` of `workbench.h`: the two
callback slots and the user context, followed by the fourteen fields of
the `CONFIG` X-macro in source order.  Text fields are owned strings
(`none` = NULL), `int` fields are `Int` (32-bit values by construction),
unsigned fields are `Nat`, `double` fields are `ℚ`.  The audio callback
slot only matters through being null or not and is modelled as a flag;
the MIDI callback slot is the routine itself (`none` = NULL). -/
structure Config where
  audio_callback : Bool
  midi_callback : Option MidiRoutine
  user_data : Nat
  midi_input : Option String
  midi_output : Option String
  midi_output_latecncy : Int
  midi_buffer_size : Int
  audio_input : Option String
  audio_output : Option String
  sample_rate : ℚ
  block_size : Nat
  audio_flags : Nat
  in_channel_count : Int
  out_channel_count : Int
  suggested_latency : ℚ
  flags : Nat
  log_level : Nat

/-- The `CONFIG(DEFAULT)` initialiser of `config_init` (defaults straight
from the X-macro list in `workbench.h`; the callback slots of the local
`Config config` are zero). -/
def defaultConfig : Config where
  audio_callback := false
  midi_callback := none
  user_data := 0
  midi_input := none
  midi_output := none
  midi_output_latecncy := 0
  midi_buffer_size := 1024
  audio_input := none
  audio_output := none
  sample_rate := 44100
  block_size := 512
  audio_flags := 0
  in_channel_count := 1
  out_channel_count := 2
  suggested_latency := -1
  flags := 0
  log_level := 4

/-- The fourteen configuration fields of the `CONFIG` X-macro. -/
inductive Field
  | midi_input
  | midi_output
  | midi_output_latecncy
  | midi_buffer_size
  | audio_input
  | audio_output
  | sample_rate
  | block_size
  | audio_flags
  | in_channel_count
  | out_channel_count
  | suggested_latency
  | flags
  | log_level
deriving DecidableEq, Repr

/-- The identifier under which a field is recognised by `parse_val` and
`argparse` (the stringised field name of the X-macro). -/
def fieldName : Field → String
  | .midi_input => "midi_input"
  | .midi_output => "midi_output"
  | .midi_output_latecncy => "midi_output_latecncy"
  | .midi_buffer_size => "midi_buffer_size"
  | .audio_input => "audio_input"
  | .audio_output => "audio_output"
  | .sample_rate => "sample_rate"
  | .block_size => "block_size"
  | .audio_flags => "audio_flags"
  | .in_channel_count => "in_channel_count"
  | .out_channel_count => "out_channel_count"
  | .suggested_latency => "suggested_latency"
  | .flags => "flags"
  | .log_level => "log_level"

/-- A typed field value, the union of the four declared field kinds of
the X-macro (text, signed, unsigned, floating). -/
inductive FieldVal
  | text : Option String → FieldVal
  | int : Int → FieldVal
  | nat : Nat → FieldVal
  | rat : ℚ → FieldVal
deriving DecidableEq, Repr

/-- Projection of one configuration field out of a `Config`. -/
def getField : Field → Config → FieldVal
  | .midi_input, c => .text c.midi_input
  | .midi_output, c => .text c.midi_output
  | .midi_output_latecncy, c => .int c.midi_output_latecncy
  | .midi_buffer_size, c => .int c.midi_buffer_size
  | .audio_input, c => .text c.audio_input
  | .audio_output, c => .text c.audio_output
  | .sample_rate, c => .rat c.sample_rate
  | .block_size, c => .nat c.block_size
  | .audio_flags, c => .nat c.audio_flags
  | .in_channel_count, c => .int c.in_channel_count
  | .out_channel_count, c => .int c.out_channel_count
  | .suggested_latency, c => .rat c.suggested_latency
  | .flags, c => .nat c.flags
  | .log_level, c => .nat c.log_level

/-- The value `parse_val` computes for a field from the raw text: text
fields are duplicated, `int` fields go through strtoll into an `int32_t`
slot, unsigned fields through strtoull into a `uint32_t` slot (of which
`log_level` reads back only the low byte), `double` fields through
strtod.  This is state independent: each recognised assignment
overwrites the field. -/
def parseFieldVal : Field → String → FieldVal
  | .midi_input, v => .text (some v)
  | .midi_output, v => .text (some v)
  | .midi_output_latecncy, v => .int (toInt32 (strtoll_conv v).1)
  | .midi_buffer_size, v => .int (toInt32 (strtoll_conv v).1)
  | .audio_input, v => .text (some v)
  | .audio_output, v => .text (some v)
  | .sample_rate, v => .rat (strtod_conv v).1
  | .block_size, v => .nat (toUInt32 (strtoull_conv v).1)
  | .audio_flags, v => .nat (toUInt32 (strtoull_conv v).1)
  | .in_channel_count, v => .int (toInt32 (strtoll_conv v).1)
  | .out_channel_count, v => .int (toInt32 (strtoll_conv v).1)
  | .suggested_latency, v => .rat (strtod_conv v).1
  | .flags, v => .nat (toUInt32 (strtoull_conv v).1)
  | .log_level, v => .nat (toUInt8 (strtoull_conv v).1)

/-- The body of the `CONFIG(PARSE)` macro for one matched field: text
fields store a duplicated copy of the value, `int` fields the strtoll
result through an `int32_t` slot, unsigned fields the strtoull result
through a `uint32_t` slot (the `uint8_t` field `log_level` reads back
only the low byte), `double` fields the strtod result. -/
def setField (c : Config) : Field → String → Config
  | .midi_input, v => { c with midi_input := some v }
  | .midi_output, v => { c with midi_output := some v }
  | .midi_output_latecncy, v => { c with midi_output_latecncy := toInt32 (strtoll_conv v).1 }
  | .midi_buffer_size, v => { c with midi_buffer_size := toInt32 (strtoll_conv v).1 }
  | .audio_input, v => { c with audio_input := some v }
  | .audio_output, v => { c with audio_output := some v }
  | .sample_rate, v => { c with sample_rate := (strtod_conv v).1 }
  | .block_size, v => { c with block_size := toUInt32 (strtoull_conv v).1 }
  | .audio_flags, v => { c with audio_flags := toUInt32 (strtoull_conv v).1 }
  | .in_channel_count, v => { c with in_channel_count := toInt32 (strtoll_conv v).1 }
  | .out_channel_count, v => { c with out_channel_count := toInt32 (strtoll_conv v).1 }
  | .suggested_latency, v => { c with suggested_latency := (strtod_conv v).1 }
  | .flags, v => { c with flags := toUInt32 (strtoull_conv v).1 }
  | .log_level, v => { c with log_level := toUInt8 (strtoull_conv v).1 }

/-- The fields in X-macro order (the order of the strcmp chain). -/
def fieldList : List Field :=
  [.midi_input, .midi_output, .midi_output_latecncy, .midi_buffer_size,
   .audio_input, .audio_output, .sample_rate, .block_size, .audio_flags,
   .in_channel_count, .out_channel_count, .suggested_latency, .flags, .log_level]

/-- The else-if strcmp chain of `parse_val`: whichever field name in
X-macro order first equals the identifier (the names are distinct, so at
most one does). -/
def fieldOfArg (arg : String) : Option Field :=
  fieldList.find? (fun f => fieldName f == arg)

/-- `parse_val` of `workbench_config.c`: the `CONFIG(PARSE)` else-if
chain over the field names.  A recognised identifier overwrites its
field with the converted value; an unknown identifier only logs a
warning and leaves the configuration unchanged. -/
def parse_val (c : Config) (arg val : String) : Config :=
  match fieldOfArg arg with
  | some f => setField c f val
  | none => c

/-- Warnings emitted by one `parse_val` call: the final else of the
chain warns about an unknown identifier; a recognised identifier never
warns (all fourteen field types are known, so the unknown-type branch is
dead, and the strto conversions cannot signal failure through a NULL
endptr). -/
def parse_val_warnings (arg : String) : Nat :=
  match fieldOfArg arg with
  | some _ => 0
  | none => 1

/-- One raw assignment source applied in iteration order, each entry
going through `parse_val` (the file loop of `config_init`). -/
def applyAssignments (c : Config) (l : List (String × String)) : Config :=
  l.foldl (fun c e => parse_val c e.1 e.2) c

/-- The merge pipeline of `config_init`: defaults first, then the file
assignments in file order, then the collected command-line assignments -
the `while (cl_args_num--)` loop walks the collected array backwards, so
the command-line source is applied in reverse command-line order. -/
def config_init_merge (fileAs cliAs : List (String × String)) : Config :=
  applyAssignments (applyAssignments defaultConfig fileAs) cliAs.reverse

/-- The value of the last assignment to field `f` in a source (later
entries shadow earlier ones), `none` when the source never assigns `f`. -/
def lastValue (f : Field) : List (String × String) → Option String
  | [] => none
  | e :: l => (lastValue f l).or (if e.1 = fieldName f then some e.2 else none)

/-- The value of the first assignment to field `f` in a source. -/
def firstValue (f : Field) : List (String × String) → Option String
  | [] => none
  | e :: l => if e.1 = fieldName f then some e.2 else firstValue f l

/-- The four declared field kinds distinguished by the `IS_TEXT_TYPE` /
`IS_INT_TYPE` / `IS_UINT_TYPE` / `IS_FLOAT_TYPE` dispatch of the
`CONFIG(PARSE)` macro. -/
inductive FieldKind
  | text
  | signedInt
  | unsignedInt
  | floatingPt
deriving DecidableEq, Repr

/-- The declared kind of each field (from the types in the X-macro:
`char *` is text, `int` is signed, `uint32_t`/`uint8_t` unsigned,
`double` floating). -/
def fieldKind : Field → FieldKind
  | .midi_input => .text
  | .midi_output => .text
  | .midi_output_latecncy => .signedInt
  | .midi_buffer_size => .signedInt
  | .audio_input => .text
  | .audio_output => .text
  | .sample_rate => .floatingPt
  | .block_size => .unsignedInt
  | .audio_flags => .unsignedInt
  | .in_channel_count => .signedInt
  | .out_channel_count => .signedInt
  | .suggested_latency => .floatingPt
  | .flags => .unsignedInt
  | .log_level => .unsignedInt

/-- Whether the strto conversion used for field `f` performs any
conversion on the text `v`.  The C code passes a NULL endptr, so this
signal is discarded by `parse_val`. -/
def convFlag (f : Field) (v : String) : Bool :=
  match fieldKind f with
  | .text => true
  | .signedInt => (strtoll_conv v).2
  | .unsignedInt => (strtoull_conv v).2
  | .floatingPt => (strtod_conv v).2

/-- The zero of a numeric field kind (what the strto family returns when
it performs no conversion). -/
def zeroNumVal (f : Field) : FieldVal :=
  match fieldKind f with
  | .text => .text none
  | .signedInt => .int 0
  | .unsignedInt => .nat 0
  | .floatingPt => .rat 0

/-! Device resolution (workbench_audio.c). -/

/-- The PortAudio device info fields read by `audio_device_find`. -/
structure PaDeviceInfo where
  name : String
  maxInputChannels : Int
  maxOutputChannels : Int
deriving DecidableEq, Repr

/-- The PortMidi device info fields read by `midi_device_find`. -/
structure PmDeviceInfo where
  name : String
  input : Bool
  output : Bool
deriving DecidableEq, Repr

/-- The scan loop of `audio_device_find`: walk the enumeration, stop at
the first device whose name equals the pattern; if that device has fewer
than the configured channels for the requested direction, log a warning
(second component) and report failure, otherwise report success.  The
result carries no device index: the function only returns the boolean. -/
def audio_device_find_go (cfg : Config) (p : String) (input : Bool) :
    List PaDeviceInfo → Bool × Nat
  | [] => (false, 0)
  | info :: rest =>
    if info.name = p then
      if (if input then info.maxInputChannels < cfg.in_channel_count
          else info.maxOutputChannels < cfg.out_channel_count)
      then (false, 1)
      else (true, 0)
    else audio_device_find_go cfg p input rest

/-- `audio_device_find` of `workbench_audio.c`: NULL pattern reports
failure without a warning, otherwise the scan loop runs. -/
def audio_device_find (devices : List PaDeviceInfo) (cfg : Config)
    (pat : Option String) (input : Bool) : Bool × Nat :=
  match pat with
  | none => (false, 0)
  | some p => audio_device_find_go cfg p input devices

/-- One device-resolution block of `audio_init` (`__audio_in_id` /
`__audio_out_id`): a NULL requested name takes the system default; a
failed find takes the system default and warns; a successful find
assigns nothing, so the static id keeps its previous value `prev`
(zero-initialised at program start).  The second component counts the
warnings logged by the block. -/
def audio_resolve (devices : List PaDeviceInfo) (cfg : Config)
    (pat : Option String) (input : Bool) (dflt prev : Int) : Int × Nat :=
  match pat with
  | none => (dflt, 0)
  | some p =>
    let r := audio_device_find devices cfg (some p) input
    if r.1 then (prev, r.2) else (dflt, r.2 + 1)

/-- The scan loop of `midi_device_find`: first device of the requested
direction whose name equals the pattern; its index is stored into the
id (`__midi_in_id` / `__midi_out_id`). -/
def midi_device_find_go (p : String) (input : Bool) :
    List PmDeviceInfo → Nat → Option Nat
  | [], _ => none
  | info :: rest, i =>
    if info.input == input && info.name == p then some i
    else midi_device_find_go p input rest (i + 1)

/-- `midi_device_find` of `workbench_audio.c`. -/
def midi_device_find (devices : List PmDeviceInfo) (pat : Option String)
    (input : Bool) : Option Nat :=
  match pat with
  | none => none
  | some p => midi_device_find_go p input devices 0

/-- One device-resolution block of `midi_init`: a NULL requested name
takes the system default; a failed find takes the system default and
warns; a successful find has stored the matched index. -/
def midi_resolve (devices : List PmDeviceInfo) (pat : Option String)
    (input : Bool) (dflt : Int) : Int × Nat :=
  match pat with
  | none => (dflt, 0)
  | some _ =>
    match midi_device_find devices pat input with
    | some i => ((i : Int), 0)
    | none => (dflt, 1)

/-! The callback bridge and the MIDI tick. -/

/-- Begin/end marks of the two user-routine invocations inside one
serviced block. -/
inductive Ev
  | midiBegin
  | midiEnd
  | audioBegin
  | audioEnd
deriving DecidableEq, Repr

/-- The user-routine invocation performed by one `__midi_callback`
tick: the routine runs (synchronously, begin to end) iff it is
registered. -/
def midi_tick_events (cfg : Config) : List Ev :=
  match cfg.midi_callback with
  | none => []
  | some _ => [.midiBegin, .midiEnd]

/-- The invocation order of `__audio_callback` for one hardware block:
first, when a MIDI routine is registered, the synchronous MIDI tick;
then, when an audio routine is registered, the audio routine. -/
def audio_callback_events (cfg : Config) : List Ev :=
  (if cfg.midi_callback.isSome then midi_tick_events cfg else []) ++
    (if cfg.audio_callback then [.audioBegin, .audioEnd] else [])

/-- The observable effects of one `__midi_callback` tick. -/
structure TickResult where
  eventsRead : List PmEvent
  invoked : Option (List PmEvent × Nat × Nat)
  writeCount : Nat
  outBuffer : List PmEvent

/-- `__midi_callback` of `workbench_audio.c`: return early when no MIDI
routine is registered; otherwise `Pm_Read` up to `midi_buffer_size`
pending events into the input buffer, invoke the routine with the input
buffer, the output buffer, the count read and the user context, and
`Pm_Write` the routine's returned count of output events iff that count
is positive.  `invoked` records the arguments of the routine
invocation; `writeCount` the count handed to `Pm_Write`. -/
def __midi_callback (cfg : Config) (userData : Nat)
    (pending outBuf : List PmEvent) : TickResult :=
  match cfg.midi_callback with
  | none => ⟨[], none, 0, outBuf⟩
  | some f =>
    let input := pending.take cfg.midi_buffer_size.toNat
    let r := f input outBuf input.length userData
    ⟨input, some (input, input.length, userData),
      if 0 < r.1 then r.1.toNat else 0, r.2⟩

/-- The wiring state produced by an initialisation run. -/
structure SystemInit where
  cfg : Config
  midiInitialized : Bool
  audioInitialized : Bool
  ptTimerStarted : Bool

/-- `config_init` after the merge: the callbacks and the user context
are stored into the global configuration first; then `midi_init` runs
iff a MIDI routine was supplied - and inside it the independent porttime
timer (`Pt_Start(1, __midi_callback, cfg->user_data)`) is started only
when no audio routine is registered; then `audio_init` runs iff an audio
routine was supplied.  Native open/start calls are taken as succeeding
(their failure paths only log and tear down). -/
def config_init (fileAs cliAs : List (String × String)) (audio_cb : Bool)
    (midi_cb : Option MidiRoutine) (ud : Nat) : SystemInit :=
  let merged := config_init_merge fileAs cliAs
  let cfg : Config :=
    { merged with audio_callback := audio_cb, midi_callback := midi_cb, user_data := ud }
  { cfg := cfg
    midiInitialized := midi_cb.isSome
    audioInitialized := audio_cb
    ptTimerStarted := midi_cb.isSome && !audio_cb }

/-! Teardown (config_deinit, midi_deinit, audio_deinit). -/

/-- A C pointer value; 0 is NULL. -/
abbrev Ptr := Nat

/-- The state relevant to teardown: the live heap allocations, the two
static event-buffer pointers of the MIDI engine, and the owned pointer
fields of the global `__cfg`.  None of these pointers is ever nulled by
the teardown code. -/
structure TearState where
  live : List Ptr
  midi_in_buffer : Ptr
  midi_out_buffer : Ptr
  cfg_midi_input : Ptr
  cfg_midi_output : Ptr
  cfg_user_data : Ptr
  cfg_flags : Nat
deriving DecidableEq, Repr

/-- C `free`: a no-op on NULL; releases a live allocation; undefined
behaviour (modelled as `none`) on a pointer that is neither - in
particular on an already-freed pointer. -/
def cFree (h : List Ptr) (p : Ptr) : Option (List Ptr) :=
  if p = 0 then some h
  else if p ∈ h then some (h.erase p)
  else none

/-- `DISABLE_MIDI = 1 << DISABLE_MIDI_BIT` with `DISABLE_MIDI_BIT = 0`. -/
def DISABLE_MIDI : Nat := 1

/-- `midi_deinit`: stop the porttime timer (compiled in only without
audio), `free` both event buffers - the static pointers are not nulled -
store `DISABLE_MIDI` through the weak flags setter (plain overwrite),
and close/terminate portmidi, logging but not escalating errors. -/
def midi_deinit (s : TearState) : Option TearState := do
  let h ← cFree s.live s.midi_in_buffer
  let h ← cFree h s.midi_out_buffer
  some { s with live := h, cfg_flags := DISABLE_MIDI }

/-- `audio_deinit`: `Pa_StopStream`, `Pa_CloseStream`, `Pa_Terminate`
only log failures; no heap memory is touched. -/
def audio_deinit (s : TearState) : Option TearState := some s

/-- `config_deinit`: audio teardown, MIDI teardown, then `free` of each
non-NULL owned pointer of `__cfg` - which is not nulled afterwards. -/
def config_deinit (s : TearState) : Option TearState := do
  let s ← audio_deinit s
  let s ← midi_deinit s
  let h ← if s.cfg_midi_input ≠ 0 then cFree s.live s.cfg_midi_input else some s.live
  let h ← if s.cfg_midi_output ≠ 0 then cFree h s.cfg_midi_output else some h
  let h ← if s.cfg_user_data ≠ 0 then cFree h s.cfg_user_data else some h
  some { s with live := h }

/-! Config-file reading (read_config_from_file). -/

/-- `starts_with` of `workbench_config.c`: strspn of the buffer against
the character set of the second argument, zero when shorter than it. -/
def starts_with (buffer pre : String) : Nat :=
  if buffer.length < pre.length then 0
  else
    let res := (buffer.toList.takeWhile (fun c => c ∈ pre.toList)).length
    if res < pre.length then 0 else res

/-- One strtok call: skip leading delimiters; NULL (`none`) when nothing
remains, otherwise the token and the resume position - strtok overwrites
the terminating delimiter with NUL and resumes right after it (at the
end of the buffer when the token ran to the end). -/
def strtok_step (s : List Char) (delims : List Char) :
    Option (List Char × List Char) :=
  let rest := s.dropWhile (fun c => c ∈ delims)
  if rest.isEmpty then none
  else
    let tok := rest.takeWhile (fun c => c ∉ delims)
    some (tok, (rest.drop tok.length).drop 1)

/-- One iteration of the fgets loop of `read_config_from_file` on a line
(the newline that fgets keeps is removed by the strcspn write before
tokenising and does not affect the leading-# comment test).  `none`
models the crash: when the value strtok returns NULL - a line with no
text after the first token, in particular one without a separator -
`while (*val == ' ')` dereferences a NULL pointer. -/
def processConfigLine (c : Config) (line : String) : Option Config :=
  if starts_with line "#" ≠ 0 then some c
  else
    match strtok_step line.toList [':', ' '] with
    | none => none
    | some (arg, rest) =>
      match strtok_step rest [':'] with
      | none => none
      | some (val, _) =>
        some (parse_val c (String.mk arg) (String.mk (val.dropWhile (fun c => c = ' '))))

/-- `read_config_from_file` over the lines of an opened file. -/
def read_config_from_file (c : Config) : List String → Option Config
  | [] => some c
  | line :: rest => do
    let c₂ ← processConfigLine c line
    read_config_from_file c₂ rest

/-! Concrete inputs used by the witnesses and evaluations. -/

/-- A user MIDI routine producing no output events. -/
def exampleMidiRoutine : MidiRoutine := fun _ outBuf _ _ => (0, outBuf)

/-- A user MIDI routine echoing its input and returning its count. -/
def echoMidiRoutine : MidiRoutine := fun input _ n _ => ((n : Int), input)

/-- A configuration with both routines registered. -/
def cfgBoth : Config :=
  { defaultConfig with audio_callback := true, midi_callback := some exampleMidiRoutine }

/-- A configuration with only the echoing MIDI routine registered. -/
def cfgEcho : Config :=
  { defaultConfig with midi_callback := some echoMidiRoutine }

/-- Audio device enumeration: index 0 named A without channels, index 1
named B with 8 channels in each direction. -/
def exampleAudioDevices : List PaDeviceInfo :=
  [⟨"A", 0, 0⟩, ⟨"B", 8, 8⟩]

/-- MIDI device enumeration: two input devices K and M. -/
def exampleMidiDevices : List PmDeviceInfo :=
  [⟨"K", true, false⟩, ⟨"M", true, false⟩]

/-- A teardown state as after an initialisation that allocated both MIDI
event buffers and an owned midi_input string. -/
def exampleTearState : TearState :=
  { live := [1, 2, 3], midi_in_buffer := 1, midi_out_buffer := 2,
    cfg_midi_input := 3, cfg_midi_output := 0, cfg_user_data := 0, cfg_flags := 0 }

end Workbench

namespace Workbench

theorem getField_setField_same (f : Field) (c : Config) (v : String) :
    getField f (setField c f v) = parseFieldVal f v := by
  cases f <;> rfl

theorem getField_setField_ne (f g : Field) (hg : g ≠ f) (c : Config) (v : String) :
    getField f (setField c g v) = getField f c := by
  cases f <;> cases g <;> first | exact absurd rfl hg | rfl

theorem fieldOfArg_fieldName (f : Field) : fieldOfArg (fieldName f) = some f := by
  cases f <;> rfl

theorem fieldName_of_fieldOfArg {a : String} {g : Field} (h : fieldOfArg a = some g) :
    fieldName g = a := by
  have hp := List.find?_some h
  exact beq_iff_eq.mp hp

theorem getField_parse_val (f : Field) (c : Config) (a v : String) :
    getField f (parse_val c a v) =
      if a = fieldName f then parseFieldVal f v else getField f c := by
  by_cases h : a = fieldName f
  · subst h
    rw [if_pos rfl]
    unfold parse_val
    rw [fieldOfArg_fieldName]
    exact getField_setField_same f c v
  · rw [if_neg h]
    unfold parse_val
    cases hfo : fieldOfArg a with
    | none => rfl
    | some g =>
      have hga : fieldName g = a := fieldName_of_fieldOfArg hfo
      have hgf : g ≠ f := fun hq => h (by rw [← hga, hq])
      exact getField_setField_ne f g hgf c v

theorem getField_applyAssignments (f : Field) (l : List (String × String)) (c : Config) :
    getField f (applyAssignments c l) =
      ((lastValue f l).map (parseFieldVal f)).getD (getField f c) := by
  induction l generalizing c with
  | nil => rfl
  | cons e l ih =>
    show getField f (applyAssignments (parse_val c e.1 e.2) l) = _
    rw [ih, getField_parse_val]
    cases h : lastValue f l with
    | some v => simp [lastValue, h]
    | none => by_cases he : e.1 = fieldName f <;> simp [lastValue, h, he]

theorem lastValue_append (f : Field) (l₁ l₂ : List (String × String)) :
    lastValue f (l₁ ++ l₂) = (lastValue f l₂).or (lastValue f l₁) := by
  induction l₁ with
  | nil => simp [lastValue]
  | cons e l ih =>
    simp only [List.cons_append, lastValue, List.append_eq, ih, Option.or_assoc]

theorem lastValue_singleton (f : Field) (e : String × String) :
    lastValue f [e] = if e.1 = fieldName f then some e.2 else none := by
  simp [lastValue]

theorem lastValue_reverse (f : Field) (l : List (String × String)) :
    lastValue f l.reverse = firstValue f l := by
  induction l with
  | nil => rfl
  | cons e l ih =>
    rw [List.reverse_cons, lastValue_append, lastValue_singleton, ih, firstValue]
    by_cases he : e.1 = fieldName f <;> cases h : firstValue f l <;> simp [he, h]

theorem firstValue_eq_none (f : Field) (l : List (String × String)) :
    firstValue f l = none ↔ ∀ e ∈ l, e.1 ≠ fieldName f := by
  induction l with
  | nil => simp [firstValue]
  | cons e l ih =>
    by_cases he : e.1 = fieldName f <;> simp [firstValue, he, ih]

theorem firstValue_mem (f : Field) (l : List (String × String)) (v : String)
    (h : firstValue f l = some v) : ∃ e ∈ l, e.1 = fieldName f ∧ e.2 = v := by
  induction l with
  | nil => simp [firstValue] at h
  | cons e l ih =>
    by_cases he : e.1 = fieldName f
    · refine ⟨e, by simp, he, ?_⟩
      simp [firstValue, he] at h
      exact h
    · simp only [firstValue, he, if_false] at h
      obtain ⟨e₂, hmem, hprop⟩ := ih h
      exact ⟨e₂, by simp [hmem], hprop⟩

/-- The final value of field `f` after the full merge: the first
command-line value when the command line assigns `f` (the backward walk
of `config_init` makes the first occurrence the last writer), otherwise
the last file value, otherwise the default. -/
theorem getField_config_init_merge (f : Field) (fileAs cliAs : List (String × String)) :
    getField f (config_init_merge fileAs cliAs) =
      (((firstValue f cliAs).or (lastValue f fileAs)).map (parseFieldVal f)).getD
        (getField f defaultConfig) := by
  unfold config_init_merge
  rw [getField_applyAssignments, lastValue_reverse, getField_applyAssignments]
  cases h : firstValue f cliAs with
  | some v => simp
  | none => simp

theorem strtoll_conv_no_digits {s : String} (h : (strtoll_conv s).2 = false) :
    (strtoll_conv s).1 = 0 := by
  simp only [strtoll_conv] at h ⊢
  split_ifs at h ⊢
  all_goals simp_all

theorem strtoull_conv_no_digits {s : String} (h : (strtoull_conv s).2 = false) :
    (strtoull_conv s).1 = 0 := by
  simp only [strtoull_conv] at h ⊢
  split_ifs at h ⊢
  all_goals simp_all

theorem strtod_conv_no_digits {s : String} (h : (strtod_conv s).2 = false) :
    (strtod_conv s).1 = 0 := by
  simp only [strtod_conv] at h ⊢
  split_ifs at h ⊢
  all_goals simp_all

theorem toInt32_zero : toInt32 0 = 0 := by decide

/-- C1: for every configuration field, applying the three sources in
sequence (defaults, then config file, then command line) leaves the
field with the value from the last source that assigned it: a field the
command line assigns ends with one of its command-line values, a field
only the file assigns ends with its last file value, an unassigned field
keeps its default; in particular a file `sample_rate: 48000` overridden
by a CLI `--sample_rate=96000` resolves to 96000. -/
theorem config_merge_precedence (f : Field) (fileAs cliAs : List (String × String)) :
    ((∃ e ∈ cliAs, e.1 = fieldName f) →
      ∃ e ∈ cliAs, e.1 = fieldName f ∧
        getField f (config_init_merge fileAs cliAs) = parseFieldVal f e.2) ∧
    ((∀ e ∈ cliAs, e.1 ≠ fieldName f) → ∀ v, lastValue f fileAs = some v →
      getField f (config_init_merge fileAs cliAs) = parseFieldVal f v) ∧
    ((∀ e ∈ cliAs, e.1 ≠ fieldName f) → lastValue f fileAs = none →
      getField f (config_init_merge fileAs cliAs) = getField f defaultConfig) ∧
    (config_init_merge [("sample_rate", "48000")] [("sample_rate", "96000")]).sample_rate
      = 96000 := by
  refine ⟨?_, ?_, ?_, by decide⟩
  · intro hex
    cases hfv : firstValue f cliAs with
    | none =>
      obtain ⟨e, hmem, he⟩ := hex
      exact absurd he ((firstValue_eq_none f cliAs).mp hfv e hmem)
    | some v =>
      obtain ⟨e, hmem, he1, he2⟩ := firstValue_mem f cliAs v hfv
      refine ⟨e, hmem, he1, ?_⟩
      rw [getField_config_init_merge, hfv]
      simp [he2]
  · intro hall v hlv
    rw [getField_config_init_merge, (firstValue_eq_none f cliAs).mpr hall, hlv]
    simp
  · intro hall hlv
    rw [getField_config_init_merge, (firstValue_eq_none f cliAs).mpr hall, hlv]
    simp

theorem config_merge_precedence_witness :
    (∃ e ∈ [("sample_rate", "96000")], e.1 = fieldName Field.sample_rate) ∧
    ∃ e ∈ [("sample_rate", "96000")], e.1 = fieldName Field.sample_rate ∧
      getField Field.sample_rate
          (config_init_merge [("sample_rate", "48000")] [("sample_rate", "96000")])
        = parseFieldVal Field.sample_rate e.2 :=
  ⟨⟨("sample_rate", "96000"), by decide, by decide⟩,
    (config_merge_precedence Field.sample_rate [("sample_rate", "48000")]
        [("sample_rate", "96000")]).1
      ⟨("sample_rate", "96000"), by decide, by decide⟩⟩

/-- C10: when the same field occurs several times on the command line,
`config_init` applies the collected assignments backwards, so the first
command-line occurrence is the last writer and determines the final
value. -/
theorem cli_first_occurrence_wins (f : Field) (fileAs cliAs : List (String × String))
    (v : String) (h : firstValue f cliAs = some v) :
    getField f (config_init_merge fileAs cliAs) = parseFieldVal f v := by
  rw [getField_config_init_merge, h]
  simp

theorem cli_first_occurrence_wins_witness :
    firstValue Field.block_size [("block_size", "128"), ("block_size", "256")] = some "128" ∧
    getField Field.block_size
        (config_init_merge [] [("block_size", "128"), ("block_size", "256")])
      = parseFieldVal Field.block_size "128" :=
  ⟨by decide,
    cli_first_occurrence_wins Field.block_size []
      [("block_size", "128"), ("block_size", "256")] "128" (by decide)⟩

/-- C4 counterexample: the raw assignment `midi_buffer_size = "abc"`
does not leave the field at its pre-merge value 1024 - strtoll with a
discarded endptr converts the unparseable text to 0 and `parse_val`
stores that 0 over the default, warning about nothing. -/
theorem unparseable_value_counterexample :
    ¬ ((parse_val defaultConfig "midi_buffer_size" "abc").midi_buffer_size
        = defaultConfig.midi_buffer_size) ∧
    (parse_val defaultConfig "midi_buffer_size" "abc").midi_buffer_size = 0 ∧
    defaultConfig.midi_buffer_size = 1024 ∧
    parse_val_warnings "midi_buffer_size" = 0 := by
  refine ⟨by decide, by decide, by decide, by decide⟩

/-- C4 amended: a raw assignment to a numeric field whose text value the
strto family cannot convert at all sets the field to zero (the
conversion result whose failure signal the NULL endptr discards), emits
no warning, and processing of subsequent assignments continues. -/
theorem unparseable_value_yields_zero (f : Field) (c : Config) (v : String)
    (hnum : fieldKind f ≠ FieldKind.text) (hconv : convFlag f v = false) :
    getField f (parse_val c (fieldName f) v) = zeroNumVal f ∧
    parse_val_warnings (fieldName f) = 0 ∧
    ∀ rest : List (String × String),
      applyAssignments c ((fieldName f, v) :: rest) =
        applyAssignments (parse_val c (fieldName f) v) rest := by
  refine ⟨?_, ?_, fun rest => rfl⟩
  · rw [getField_parse_val, if_pos rfl]
    cases f <;>
      first
        | exact absurd rfl hnum
        | (simp only [convFlag, fieldKind] at hconv
           simp [parseFieldVal, zeroNumVal, fieldKind, strtoll_conv_no_digits hconv,
             toInt32_zero])
        | (simp only [convFlag, fieldKind] at hconv
           simp [parseFieldVal, zeroNumVal, fieldKind, strtoull_conv_no_digits hconv,
             toUInt32, toUInt8])
        | (simp only [convFlag, fieldKind] at hconv
           simp [parseFieldVal, zeroNumVal, fieldKind, strtod_conv_no_digits hconv])
  · simp [parse_val_warnings, fieldOfArg_fieldName]

theorem unparseable_value_yields_zero_witness :
    fieldKind Field.midi_buffer_size ≠ FieldKind.text ∧
    convFlag Field.midi_buffer_size "abc" = false ∧
    getField Field.midi_buffer_size
        (parse_val defaultConfig (fieldName Field.midi_buffer_size) "abc")
      = zeroNumVal Field.midi_buffer_size :=
  ⟨by decide, by decide,
    (unparseable_value_yields_zero Field.midi_buffer_size defaultConfig "abc"
        (by decide) (by decide)).1⟩

/-- C2: within one serviced block in which both a user audio routine and
a user MIDI routine are registered, the MIDI routine invocation for the
block completes before the audio routine invocation begins. -/
theorem midi_before_audio (cfg : Config) (f : MidiRoutine)
    (hm : cfg.midi_callback = some f) (ha : cfg.audio_callback = true) :
    audio_callback_events cfg
      = [Ev.midiBegin, Ev.midiEnd, Ev.audioBegin, Ev.audioEnd] ∧
    (audio_callback_events cfg).indexOf Ev.midiEnd <
      (audio_callback_events cfg).indexOf Ev.audioBegin := by
  have ht : audio_callback_events cfg
      = [Ev.midiBegin, Ev.midiEnd, Ev.audioBegin, Ev.audioEnd] := by
    simp [audio_callback_events, midi_tick_events, hm, ha]
  exact ⟨ht, by rw [ht]; decide⟩

theorem midi_before_audio_witness :
    cfgBoth.midi_callback = some exampleMidiRoutine ∧
    cfgBoth.audio_callback = true ∧
    audio_callback_events cfgBoth
      = [Ev.midiBegin, Ev.midiEnd, Ev.audioBegin, Ev.audioEnd] :=
  ⟨rfl, rfl, (midi_before_audio cfgBoth exampleMidiRoutine rfl rfl).1⟩

/-- C6: the independent porttime timer and the audio callback are
mutually exclusive drivers of the MIDI tick: after initialisation the
timer runs only when no audio routine is registered, and with an audio
routine registered no timer is started while the tick events of a
registered MIDI routine appear inside the audio callback. -/
theorem midi_clock_exclusive (fileAs cliAs : List (String × String)) (audio_cb : Bool)
    (midi_cb : Option MidiRoutine) (ud : Nat) :
    ((config_init fileAs cliAs audio_cb midi_cb ud).ptTimerStarted = true →
      (config_init fileAs cliAs audio_cb midi_cb ud).cfg.audio_callback = false) ∧
    (audio_cb = true →
      (config_init fileAs cliAs audio_cb midi_cb ud).ptTimerStarted = false) ∧
    (audio_cb = true → midi_cb.isSome = true →
      audio_callback_events (config_init fileAs cliAs audio_cb midi_cb ud).cfg
        = [Ev.midiBegin, Ev.midiEnd, Ev.audioBegin, Ev.audioEnd]) := by
  cases midi_cb <;> cases audio_cb <;>
    simp [config_init, audio_callback_events, midi_tick_events]

theorem midi_clock_exclusive_witness :
    (config_init [] [] true (some exampleMidiRoutine) 0).ptTimerStarted = false ∧
    audio_callback_events (config_init [] [] true (some exampleMidiRoutine) 0).cfg
      = [Ev.midiBegin, Ev.midiEnd, Ev.audioBegin, Ev.audioEnd] :=
  ⟨(midi_clock_exclusive [] [] true (some exampleMidiRoutine) 0).2.1 rfl,
    (midi_clock_exclusive [] [] true (some exampleMidiRoutine) 0).2.2 rfl rfl⟩

/-- C8: one MIDI tick reads at most `midi_buffer_size` pending events
into the input buffer; a registered MIDI routine is invoked with the
input buffer, the output buffer, the number of events read and the
shared user context; exactly the routine's returned count of output
events is handed to the output stream when that count is positive and
nothing is written otherwise; without a registered routine nothing is
invoked, read or written. -/
theorem midi_tick_contract (cfg : Config) (pending outBuf : List PmEvent) :
    ((__midi_callback cfg cfg.user_data pending outBuf).eventsRead.length ≤
        cfg.midi_buffer_size.toNat) ∧
    (∀ f, cfg.midi_callback = some f →
      (__midi_callback cfg cfg.user_data pending outBuf).eventsRead
          = pending.take cfg.midi_buffer_size.toNat ∧
      (__midi_callback cfg cfg.user_data pending outBuf).invoked
          = some (pending.take cfg.midi_buffer_size.toNat,
              (pending.take cfg.midi_buffer_size.toNat).length, cfg.user_data) ∧
      (__midi_callback cfg cfg.user_data pending outBuf).writeCount
          = (if 0 < (f (pending.take cfg.midi_buffer_size.toNat) outBuf
                  (pending.take cfg.midi_buffer_size.toNat).length cfg.user_data).1
             then (f (pending.take cfg.midi_buffer_size.toNat) outBuf
                  (pending.take cfg.midi_buffer_size.toNat).length cfg.user_data).1.toNat
             else 0)) ∧
    (cfg.midi_callback = none →
      (__midi_callback cfg cfg.user_data pending outBuf).invoked = none ∧
      (__midi_callback cfg cfg.user_data pending outBuf).writeCount = 0) := by
  cases h : cfg.midi_callback with
  | none => simp [__midi_callback, h]
  | some f =>
    refine ⟨?_, ?_, by simp [h]⟩
    · simp [__midi_callback, h, List.length_take]
    · intro g hg
      have hfg : g = f := (Option.some.inj hg).symm
      subst hfg
      simp [__midi_callback, h]

theorem midi_tick_contract_witness :
    cfgEcho.midi_callback = some echoMidiRoutine ∧
    (__midi_callback cfgEcho cfgEcho.user_data
        [⟨1, 0⟩, ⟨2, 0⟩] []).writeCount = 2 := by
  refine ⟨rfl, ?_⟩
  have hres := (midi_tick_contract cfgEcho [⟨1, 0⟩, ⟨2, 0⟩] []).2.1 echoMidiRoutine rfl
  rw [hres.2.2]
  decide

theorem audio_device_find_go_no_match (cfg : Config) (p : String) (input : Bool)
    (devices : List PaDeviceInfo) (h : ∀ d ∈ devices, d.name ≠ p) :
    audio_device_find_go cfg p input devices = (false, 0) := by
  induction devices with
  | nil => rfl
  | cons d rest ih =>
    have hd : d.name ≠ p := h d (by simp)
    simp only [audio_device_find_go, if_neg hd]
    exact ih (fun e he => h e (by simp [he]))

theorem midi_device_find_go_no_match (p : String) (input : Bool)
    (devices : List PmDeviceInfo) (h : ∀ d ∈ devices, d.name ≠ p) :
    ∀ i, midi_device_find_go p input devices i = none := by
  induction devices with
  | nil => intro i; rfl
  | cons d rest ih =>
    intro i
    have hd : d.name ≠ p := h d (by simp)
    have hcond : (d.input == input && d.name == p) = false := by
      simp [hd]
    simp only [midi_device_find_go, hcond, Bool.false_eq_true, if_false]
    exact ih (fun e he => h e (by simp [he])) (i + 1)

/-- C7: a requested device name matching no enumerated device resolves
to the system default handle for the direction and logs exactly one
warning - in the audio blocks of `audio_init` and in the MIDI blocks of
`midi_init` alike. -/
theorem missing_device_falls_back (audevs : List PaDeviceInfo)
    (mdevs : List PmDeviceInfo) (cfg : Config) (p : String) (input : Bool)
    (dfltA dfltM prev : Int)
    (ha : ∀ d ∈ audevs, d.name ≠ p) (hm : ∀ d ∈ mdevs, d.name ≠ p) :
    audio_resolve audevs cfg (some p) input dfltA prev = (dfltA, 1) ∧
    midi_resolve mdevs (some p) input dfltM = (dfltM, 1) := by
  constructor
  · simp [audio_resolve, audio_device_find,
      audio_device_find_go_no_match cfg p input audevs ha]
  · simp [midi_resolve, midi_device_find,
      midi_device_find_go_no_match p input mdevs hm 0]

theorem missing_device_falls_back_witness :
    (∀ d ∈ exampleAudioDevices, d.name ≠ "missing-device") ∧
    audio_resolve exampleAudioDevices defaultConfig (some "missing-device") false 3 0
      = (3, 1) ∧
    midi_resolve exampleMidiDevices (some "missing-device") false 4 = (4, 1) := by
  have h := missing_device_falls_back exampleAudioDevices exampleMidiDevices
    defaultConfig "missing-device" false 3 4 0 (by decide) (by decide)
  exact ⟨by decide, h.1, h.2⟩

/-- C3 evaluated at the failing input: the requested audio input "B"
exactly matches enumerated device 1, which offers 8 input channels
against a configured 1, so `audio_device_find` succeeds - yet the
resolution block of `audio_init` assigns nothing on success and the
stream id keeps its stale previous value 0, which is neither the matched
index 1 nor the default 2.  The MIDI scan, by contrast, returns the
matched index. -/
theorem matched_device_stale_id :
    audio_device_find exampleAudioDevices defaultConfig (some "B") true = (true, 0) ∧
    audio_resolve exampleAudioDevices defaultConfig (some "B") true 2 0 = (0, 0) ∧
    exampleAudioDevices[1]? = some ⟨"B", 8, 8⟩ ∧
    defaultConfig.in_channel_count = 1 ∧
    midi_resolve exampleMidiDevices (some "M") true 7 = (1, 0) := by
  refine ⟨by decide, by decide, by decide, by decide, by decide⟩

/-- C5 evaluated at the failing input: after an initialisation that
allocated the two MIDI event buffers and an owned midi_input string, the
first `config_deinit` succeeds and frees all three, but no pointer is
nulled, so the second `config_deinit` calls free on the already-released
`midi_in_buffer` - a double free, not a no-op. -/
theorem double_deinit_double_free :
    (config_deinit exampleTearState).isSome = true ∧
    (config_deinit exampleTearState).bind config_deinit = none := by
  refine ⟨by decide, by decide⟩

/-- C9 evaluated at the failing input: a config-file line carrying no
value token (here the single line `foo`) makes the value strtok return
NULL and `read_config_from_file` dereference it - resolution crashes
instead of warning; a well-formed file is processed normally. -/
theorem config_file_line_crash :
    (read_config_from_file defaultConfig ["foo"]).isNone = true ∧
    (read_config_from_file defaultConfig ["# comment", "sample_rate: 48000"]).map
        (fun c => c.sample_rate) = some 48000 := by
  refine ⟨by decide, by decide⟩

end Workbench
